import Mathlib

/-!
Verification development for the clustered HTTP proxy server
(`src/server.ts`, `src/server-schema.ts`, `src/config-schema.ts`).

The definitions below are a shallow embedding of the TypeScript source:

* configuration records mirror the zod schemas in `config-schema.ts`;
* `handleRequest` mirrors the master-process request handler installed by
  `createServer` (rate limiting, cache lookup, round-robin worker selection,
  payload construction), lines 126-212 of `server.ts`;
* `handleWorkerReply` mirrors the per-request `worker.on("message", ...)`
  closure, lines 195-211 (note that it uses the timestamp `now` captured at
  request arrival);
* `workerHandle` mirrors the worker-process `process.on("message", ...)`
  handler, lines 241-344;
* `sweep` / `defaultSweepInterval` mirror the `setInterval` cache sweeper,
  lines 85-93;
* `deliver` mirrors Node's event-emitter behaviour for the per-request
  `worker.on("message", ...)` registrations: every message from a worker is
  broadcast to every listener registered on it, and each listener ends its
  own client response with the first reply it sees.

JavaScript `Map`s are embedded as association lists with `Map.set` replacing
the existing binding; truthiness tests on numbers (`x || y`) are embedded
with explicit zero tests, and on optional objects with `jsOr`.  Timestamps
(`Date.now()`) are naturals.
-/

set_option maxHeartbeats 1000000

namespace ProxyServer

/-- Rate-limit configuration (`rateLimitSchema` in `config-schema.ts`). -/
structure RateLimitConfig where
  enabled : Bool
  maxRequests : Nat
  timeWindow : Nat
deriving DecidableEq

/-- Cache configuration (`cacheSchema` in `config-schema.ts`). -/
structure CacheConfig where
  enabled : Bool
  maxSize : Nat
  expirationTime : Nat
deriving DecidableEq

/-- An upstream target (`upstreamSchems` in `config-schema.ts`). -/
structure Upstream where
  id : String
  url : String
deriving DecidableEq

/-- A routing rule (`ruleSchema` in `config-schema.ts`). -/
structure Rule where
  path : String
  upstreams : List String
  rateLimit : Option RateLimitConfig
  cache : Option CacheConfig
deriving DecidableEq

/-- The `server` section of the configuration (`serverSchema`). -/
structure ServerConfig where
  listen : Nat
  workers : Option Nat
  upstreams : List Upstream
  rules : List Rule
deriving DecidableEq

/-- The root configuration (`rootConfigSchema`). -/
structure ConfigSchemaType where
  server : ServerConfig
  rateLimit : Option RateLimitConfig
  cache : Option CacheConfig
deriving DecidableEq

/-- Per-client rate-limit bookkeeping (`ClientInfo` in `server.ts`). -/
structure ClientInfo where
  lastRequestTime : Nat
  requestCount : Nat
deriving DecidableEq

/-- A cached response (`CacheEntry` in `server.ts`). -/
structure CacheEntry where
  data : String
  expirationTime : Nat
deriving DecidableEq

/-- `Map.get`: first binding of the key in the association list. -/
def mapLookup {α : Type} (k : String) : List (String × α) → Option α
  | [] => none
  | (k', v) :: rest => if k' = k then some v else mapLookup k rest

/-- `Map.set`: replace any existing binding of the key. -/
def mapInsert {α : Type} (k : String) (v : α) (m : List (String × α)) :
    List (String × α) :=
  (k, v) :: m.filter (fun p => decide (p.1 ≠ k))

/-- `Map.delete`: drop all bindings of the key. -/
def mapErase {α : Type} (k : String) (m : List (String × α)) :
    List (String × α) :=
  m.filter (fun p => decide (p.1 ≠ k))

/-- JavaScript `a || b` on optional objects: an object is always truthy,
`undefined` falls through. -/
def jsOr {α : Type} (a b : Option α) : Option α :=
  match a with
  | some x => some x
  | none => b

/-- Window rollover (`server.ts` lines 144-146): if
`now - clientInfo.lastRequestTime > activeRateLimit.timeWindow`, reset
`requestCount` to 0. -/
def rollInfo (rl : RateLimitConfig) (info : ClientInfo) (now : Nat) : ClientInfo :=
  if rl.timeWindow < now - info.lastRequestTime then
    { info with requestCount := 0 }
  else info

/-- One rate-limiter check (`server.ts` lines 144-157): roll the window,
reject when `requestCount >= maxRequests`, otherwise record the accepted
request.  Returns (accepted?, the client state as mutated by the check). -/
def rateLimitStep (rl : RateLimitConfig) (info : ClientInfo) (now : Nat) :
    Bool × ClientInfo :=
  let rolled := rollInfo rl info now
  if rl.maxRequests ≤ rolled.requestCount then
    (false, rolled)
  else
    (true, { lastRequestTime := now, requestCount := rolled.requestCount + 1 })

/-- Run the rate limiter over a sequence of request timestamps for one
client, threading the client state exactly as repeated executions of the
handler would. -/
def runRequests (rl : RateLimitConfig) (info : ClientInfo) :
    List Nat → List Bool × ClientInfo
  | [] => ([], info)
  | t :: rest =>
    let st := rateLimitStep rl info t
    let tail := runRequests rl st.2 rest
    (st.1 :: tail.1, tail.2)

/-- Each timestamp in the list is within `W` of its predecessor (the
previous request's time), in the code's own `now - last ≤ W` sense. -/
def gapsWithin (W : Nat) : Nat → List Nat → Bool
  | _, [] => true
  | prev, t :: rest => decide (t - prev ≤ W) && gapsWithin W t rest

/-- Effective rate-limit configuration for a request URL
(`server.ts` lines 128-133): the first rule whose `path` equals the raw
request URL; its `rateLimit` if present, else the global one. -/
def activeRLFor (cfg : ConfigSchemaType) (url : String) : Option RateLimitConfig :=
  jsOr ((cfg.server.rules.find? (fun r => decide (r.path = url))).bind Rule.rateLimit)
    cfg.rateLimit

/-- Effective cache configuration for a request URL
(`server.ts` lines 128-134). -/
def activeCCFor (cfg : ConfigSchemaType) (url : String) : Option CacheConfig :=
  jsOr ((cfg.server.rules.find? (fun r => decide (r.path = url))).bind Rule.cache)
    cfg.cache

/-- `activeCacheConfig.expirationTime || 60000` (`server.ts` line 204):
JavaScript `||` treats 0 as falsy. -/
def effTTL : Option CacheConfig → Nat
  | some cc => if cc.expirationTime = 0 then 60000 else cc.expirationTime
  | none => 60000

/-- The sweep period `globalCacheConfig?.expirationTime || 60000`
(`server.ts` line 93): again 0 is falsy. -/
def defaultSweepInterval : Option CacheConfig → Nat
  | some cc => if cc.expirationTime = 0 then 60000 else cc.expirationTime
  | none => 60000

/-- One run of the periodic sweeper (`server.ts` lines 85-93): delete every
entry with `expirationTime <= now`. -/
def sweep (now : Nat) (cache : List (String × CacheEntry)) :
    List (String × CacheEntry) :=
  cache.filter (fun p => decide (now < p.2.expirationTime))

/-- `roundRobin` (`server.ts` lines 115-120): return the worker at the
cursor and advance the cursor by one modulo the pool size.  Result is
(selected index, new cursor). -/
def roundRobinSelect (poolSize : Nat) (cursor : Nat) : Nat × Nat :=
  (cursor, (cursor + 1) % poolSize)

/-- The sequence of worker indices selected by `m` consecutive
`roundRobin()` calls starting from the given cursor. -/
def selections (poolSize : Nat) : Nat → Nat → List Nat
  | 0, _ => []
  | m + 1, cursor =>
    (roundRobinSelect poolSize cursor).1 ::
      selections poolSize m (roundRobinSelect poolSize cursor).2

/-- The wire message sent to a worker (`workerMessageSchema` in
`server-schema.ts`): exactly the fields `requestType`, `headers`, `body`,
`url` — the schema has no correlation-id field. -/
structure WorkerMessage where
  requestType : String
  headers : List (String × String)
  body : String
  url : String
deriving DecidableEq

/-- The payload the master builds for a request (`server.ts` lines
185-190). -/
def buildPayload (headers : List (String × String)) (url : String) : WorkerMessage :=
  { requestType := "http", headers := headers, body := "", url := url }

/-- A worker's reply (`workerMessageReplySchema` in `server-schema.ts`). -/
structure WorkerReply where
  data : Option String
  error : Option String
  errorCode : Option String
deriving DecidableEq

/-- Outcome of the master's synchronous handling of one request. -/
inductive Outcome where
  | rateLimited
  | cacheHit (data : String)
  | unavailable
  | forwarded (payload : WorkerMessage) (workerIdx : Nat)
deriving DecidableEq

/-- Result of the master's synchronous handling of one request: the
outcome plus the updated shared state. -/
structure DispatchResult where
  outcome : Outcome
  clients : List (String × ClientInfo)
  cache : List (String × CacheEntry)
  cursor : Nat
deriving DecidableEq

/-- The immediate HTTP response produced for locally-answered outcomes
(`server.ts` lines 150-151, 167-168, 180-181). -/
def responseOf : Outcome → Option (Nat × String)
  | .rateLimited => some (429, "Too Many Requests")
  | .cacheHit d => some (200, d)
  | .unavailable => some (503, "Service Unavailable")
  | .forwarded _ _ => none

/-- The message sent to a worker by an outcome, if any. -/
def sentMessage : Outcome → Option WorkerMessage
  | .forwarded p _ => some p
  | _ => none

/-- Worker selection and send (`server.ts` lines 176-192): `roundRobin()`
is called first (advancing the cursor), then the connectivity check may
still answer 503. -/
def dispatchToWorker (poolSize : Nat) (connected : Nat → Bool)
    (clients : List (String × ClientInfo)) (cache : List (String × CacheEntry))
    (cursor : Nat) (headers : List (String × String)) (url : String) :
    DispatchResult :=
  let sel := roundRobinSelect poolSize cursor
  if connected sel.1 then
    { outcome := .forwarded (buildPayload headers url) sel.1,
      clients := clients, cache := cache, cursor := sel.2 }
  else
    { outcome := .unavailable, clients := clients, cache := cache, cursor := sel.2 }

/-- Cache lookup then dispatch (`server.ts` lines 160-192): on an enabled
cache, a present and unexpired entry is served directly; otherwise the
(possibly absent) entry is deleted and the request is dispatched. -/
def cacheAndDispatch (activeCC : Option CacheConfig) (poolSize : Nat)
    (connected : Nat → Bool) (clients : List (String × ClientInfo))
    (cache : List (String × CacheEntry)) (cursor : Nat)
    (headers : List (String × String)) (url : String) (now : Nat) :
    DispatchResult :=
  match activeCC with
  | some cc =>
    if cc.enabled then
      match mapLookup url cache with
      | some entry =>
        if now < entry.expirationTime then
          { outcome := .cacheHit entry.data,
            clients := clients, cache := cache, cursor := cursor }
        else
          dispatchToWorker poolSize connected clients (mapErase url cache)
            cursor headers url
      | none =>
        dispatchToWorker poolSize connected clients (mapErase url cache)
          cursor headers url
    else
      dispatchToWorker poolSize connected clients cache cursor headers url
  | none =>
    dispatchToWorker poolSize connected clients cache cursor headers url

/-- The master's request handler (`server.ts` lines 126-212) up to the
point where the request is answered locally or a payload is sent to a
worker.  The client-state update follows the JavaScript aliasing exactly:
`clientInfo` aliases the stored record, so the window-roll write persists
even on a 429 return (for a client already in the map), while the explicit
`clientRequestCounts.set` happens only on acceptance. -/
def handleRequest (cfg : ConfigSchemaType) (poolSize : Nat)
    (connected : Nat → Bool) (clients : List (String × ClientInfo))
    (cache : List (String × CacheEntry)) (cursor : Nat) (clientIp : String)
    (headers : List (String × String)) (url : String) (now : Nat) :
    DispatchResult :=
  match activeRLFor cfg url with
  | some rl =>
    if rl.enabled then
      if (rateLimitStep rl ((mapLookup clientIp clients).getD
          { lastRequestTime := now, requestCount := 0 }) now).1 then
        cacheAndDispatch (activeCCFor cfg url) poolSize connected
          (mapInsert clientIp
            (rateLimitStep rl ((mapLookup clientIp clients).getD
              { lastRequestTime := now, requestCount := 0 }) now).2 clients)
          cache cursor headers url now
      else
        { outcome := .rateLimited,
          clients := if (mapLookup clientIp clients).isSome then
              mapInsert clientIp
                (rateLimitStep rl ((mapLookup clientIp clients).getD
                  { lastRequestTime := now, requestCount := 0 }) now).2 clients
            else clients,
          cache := cache, cursor := cursor }
    else
      cacheAndDispatch (activeCCFor cfg url) poolSize connected clients cache
        cursor headers url now
  | none =>
    cacheAndDispatch (activeCCFor cfg url) poolSize connected clients cache
      cursor headers url now

/-- The HTTP response eventually written for one client. -/
structure ClientResponse where
  status : Nat
  body : String
deriving DecidableEq

/-- The reply-handling closure (`server.ts` lines 195-211).  `arrivalNow`
is the `now` captured at request arrival on line 136 — the closure has no
other clock reading.  On an error reply, respond with the parsed code; on
success, store the body in the cache (when caching is enabled and the body
is truthy, i.e. non-empty) with expiration `arrivalNow + effTTL` and
respond 200. -/
def handleWorkerReply (activeCC : Option CacheConfig) (url : String)
    (arrivalNow : Nat) (cache : List (String × CacheEntry))
    (reply : WorkerReply) : List (String × CacheEntry) × ClientResponse :=
  match reply.errorCode with
  | some code =>
    if code = "" then
      (cacheStoreOnSuccess activeCC url arrivalNow cache reply,
        { status := 200, body := reply.data.getD "" })
    else
      (cache, { status := code.toNat?.getD 0, body := reply.error.getD "" })
  | none =>
    (cacheStoreOnSuccess activeCC url arrivalNow cache reply,
      { status := 200, body := reply.data.getD "" })
where
  /-- Lines 202-207: `cache.set(req.url, {data, expirationTime: now + ttl})`
  guarded by `activeCacheConfig?.enabled && reply.data`. -/
  cacheStoreOnSuccess (activeCC : Option CacheConfig) (url : String)
      (arrivalNow : Nat) (cache : List (String × CacheEntry))
      (reply : WorkerReply) : List (String × CacheEntry) :=
    match activeCC with
    | some cc =>
      if cc.enabled then
        match reply.data with
        | some d =>
          if d = "" then cache
          else mapInsert url { data := d, expirationTime := arrivalNow + effTTL (some cc) } cache
        | none => cache
      else cache
    | none => cache

/-- A raw HTTP request target as Node exposes it: `IncomingMessage.url` is
the request-target from the request line, i.e. the path followed by the
query string when one is present. -/
structure ReqTarget where
  path : String
  query : Option String
deriving DecidableEq

/-- The query-string suffix of a request target: `?query` when present. -/
def querySuffix : Option String → String
  | some q => "?" ++ q
  | none => ""

/-- Node's `req.url` for a target: path, plus `?query` when present. -/
def rawUrl (t : ReqTarget) : String :=
  t.path ++ querySuffix t.query

/-- The key under which the handler reads and writes the response cache
(`cache.get(req.url)` line 162, `cache.set(req.url, ...)` line 205): the
raw request URL. -/
def cacheKey (t : ReqTarget) : String := rawUrl t

/-- A JSON value, for embedding the zod validation performed by the
worker on incoming messages. -/
inductive JValue where
  | jnull
  | jbool (b : Bool)
  | jnum (n : Int)
  | jstr (s : String)
  | jarr (elems : List JValue)
  | jobj (fields : List (String × JValue))

/-- Field lookup in a JSON object. -/
def jLookup (k : String) : List (String × JValue) → Option JValue
  | [] => none
  | (k', v) :: rest => if k' = k then some v else jLookup k rest

/-- `workerMessageSchema.parseAsync` (`server-schema.ts` lines 23-40):
an object whose `requestType` is the literal `"http"`, whose `headers` is
any object (zod's `z.object({})` strips all keys), and whose `body` and
`url` are strings. -/
def validateWorkerMessage (j : JValue) : Option WorkerMessage :=
  match j with
  | .jobj fields =>
    match jLookup "requestType" fields, jLookup "headers" fields,
        jLookup "body" fields, jLookup "url" fields with
    | some (.jstr rt), some (.jobj _), some (.jstr b), some (.jstr u) =>
      if rt = "http" then
        some { requestType := rt, headers := [], body := b, url := u }
      else none
    | _, _, _, _ => none
  | _ => none

/-- `config.server.rules.find(e => e.path === url)`: first rule whose path
equals the URL (used on both the master side, line 128, and the worker side,
line 265). -/
def ruleFor (cfg : ConfigSchemaType) (url : String) : Option Rule :=
  cfg.server.rules.find? (fun r => decide (r.path = url))

/-- The worker's handling of a schema-valid message (`server.ts` lines
263-344): rule lookup, upstream-id selection (`rule.upstreams[0]`, with the
JavaScript falsy test `!upstreamId` also catching the empty string),
upstream resolution, then the forwarded call. -/
def workerResolve (cfg : ConfigSchemaType) (msg : WorkerMessage)
    (upstreamBody : String) : WorkerReply :=
  match ruleFor cfg msg.url with
  | none =>
    { data := none, error := some "Rule Not Found", errorCode := some "404" }
  | some rule =>
    match rule.upstreams.head? with
    | none =>
      { data := none, error := some "Upstream ID Not Found", errorCode := some "500" }
    | some uid =>
      if uid = "" then
        { data := none, error := some "Upstream ID Not Found", errorCode := some "500" }
      else
        match cfg.server.upstreams.find? (fun u => decide (u.id = uid)) with
        | none =>
          { data := none, error := some "Upstream Not Found", errorCode := some "500" }
        | some _ =>
          { data := some upstreamBody, error := none, errorCode := none }

/-- The worker's message handler (`server.ts` lines 241-344): schema
validation, then `workerResolve`. -/
def workerHandle (cfg : ConfigSchemaType) (j : JValue) (upstreamBody : String) :
    WorkerReply :=
  match validateWorkerMessage j with
  | none =>
    { data := none, error := some "Message Parsing Error", errorCode := some "400" }
  | some msg => workerResolve cfg msg upstreamBody

/-- A client connection whose request is in flight on some worker: the
per-request `worker.on("message", ...)` listener together with whether its
response has already been ended, and if so with what reply. -/
structure Pending where
  clientId : Nat
  completed : Option WorkerReply
deriving DecidableEq

/-- Delivery of one worker message under Node's event-emitter semantics
(`server.ts` line 195 registers a fresh listener per request and never
removes it): the message is broadcast to every registered listener; each
listener whose response is still open ends it with this reply. -/
def deliver (reply : WorkerReply) (listeners : List Pending) : List Pending :=
  listeners.map (fun p =>
    match p.completed with
    | none => { p with completed := some reply }
    | some _ => p)


/-! ## Association-list (JavaScript `Map`) lemmas -/

theorem mapLookup_cons {α : Type} (k k2 : String) (v : α)
    (tl : List (String × α)) :
    mapLookup k2 ((k, v) :: tl) = if k = k2 then some v else mapLookup k2 tl := rfl

theorem mapLookup_filterNe {α : Type} (k k2 : String) (hne : k2 ≠ k)
    (m : List (String × α)) :
    mapLookup k2 (m.filter (fun p => decide (p.1 ≠ k))) = mapLookup k2 m := by
  induction m with
  | nil => rfl
  | cons hd tl ih =>
    obtain ⟨k3, v⟩ := hd
    by_cases h3 : k3 = k
    · subst h3
      rw [List.filter_cons, if_neg (by simp), mapLookup_cons,
        if_neg (fun h => hne h.symm)]
      exact ih
    · rw [List.filter_cons, if_pos (by simpa using h3), mapLookup_cons,
        mapLookup_cons]
      by_cases h32 : k3 = k2
      · rw [if_pos h32, if_pos h32]
      · rw [if_neg h32, if_neg h32]
        exact ih

theorem mapLookup_insert_self {α : Type} (k : String) (v : α)
    (m : List (String × α)) :
    mapLookup k (mapInsert k v m) = some v := by
  rw [mapInsert, mapLookup_cons, if_pos rfl]

theorem mapLookup_insert_ne {α : Type} (k k2 : String) (v : α)
    (m : List (String × α)) (hne : k2 ≠ k) :
    mapLookup k2 (mapInsert k v m) = mapLookup k2 m := by
  rw [mapInsert, mapLookup_cons, if_neg (fun h => hne h.symm)]
  exact mapLookup_filterNe k k2 hne m

theorem sweep_cons (now : Nat) (k : String) (v : CacheEntry)
    (tl : List (String × CacheEntry)) :
    sweep now ((k, v) :: tl) =
      if now < v.expirationTime then (k, v) :: sweep now tl else sweep now tl := by
  rw [sweep, List.filter_cons]
  by_cases h : now < v.expirationTime
  · rw [if_pos (by simpa using h), if_pos h]
    rfl
  · rw [if_neg (by simpa using h), if_neg h]
    rfl

theorem mapLookup_sweep_fresh (now : Nat) (c : List (String × CacheEntry))
    (url : String) (e : CacheEntry)
    (h : mapLookup url (sweep now c) = some e) : now < e.expirationTime := by
  induction c with
  | nil => exact absurd h (by simp [sweep, mapLookup])
  | cons hd tl ih =>
    obtain ⟨k, v⟩ := hd
    rw [sweep_cons] at h
    by_cases hv : now < v.expirationTime
    · rw [if_pos hv, mapLookup_cons] at h
      by_cases hk : k = url
      · rw [if_pos hk] at h
        cases h
        exact hv
      · rw [if_neg hk] at h
        exact ih h
    · rw [if_neg hv] at h
      exact ih h

theorem mapLookup_sweep_of_fresh (now : Nat) (c : List (String × CacheEntry))
    (url : String) (e : CacheEntry)
    (h : mapLookup url c = some e) (hfresh : now < e.expirationTime) :
    mapLookup url (sweep now c) = some e := by
  induction c with
  | nil => exact absurd h (by simp [mapLookup])
  | cons hd tl ih =>
    obtain ⟨k, v⟩ := hd
    rw [mapLookup_cons] at h
    rw [sweep_cons]
    by_cases hk : k = url
    · rw [if_pos hk] at h
      cases h
      rw [if_pos hfresh, mapLookup_cons, if_pos hk]
    · rw [if_neg hk] at h
      by_cases hv : now < v.expirationTime
      · rw [if_pos hv, mapLookup_cons, if_neg hk]
        exact ih h
      · rw [if_neg hv]
        exact ih h

/-! ## Rate limiter lemmas -/

theorem rollInfo_lastRequestTime (rl : RateLimitConfig) (info : ClientInfo)
    (now : Nat) : (rollInfo rl info now).lastRequestTime = info.lastRequestTime := by
  rw [rollInfo]
  split <;> rfl

theorem rateLimitStep_eq (rl : RateLimitConfig) (info : ClientInfo) (now : Nat) :
    rateLimitStep rl info now =
      if rl.maxRequests ≤ (rollInfo rl info now).requestCount then
        (false, rollInfo rl info now)
      else
        (true, { lastRequestTime := now,
                 requestCount := (rollInfo rl info now).requestCount + 1 }) := rfl

theorem rateLimitStep_false (rl : RateLimitConfig) (info : ClientInfo) (now : Nat)
    (h : (rateLimitStep rl info now).1 = false) :
    rateLimitStep rl info now = (false, rollInfo rl info now) := by
  rw [rateLimitStep_eq] at h ⊢
  by_cases hc : rl.maxRequests ≤ (rollInfo rl info now).requestCount
  · rw [if_pos hc]
  · rw [if_neg hc] at h
    exact absurd h (by simp)

theorem rateLimitStep_true (rl : RateLimitConfig) (info : ClientInfo) (now : Nat)
    (h : (rateLimitStep rl info now).1 = true) :
    rateLimitStep rl info now =
      (true, { lastRequestTime := now,
               requestCount := (rollInfo rl info now).requestCount + 1 }) := by
  rw [rateLimitStep_eq] at h ⊢
  by_cases hc : rl.maxRequests ≤ (rollInfo rl info now).requestCount
  · rw [if_pos hc] at h
    exact absurd h (by simp)
  · rw [if_neg hc]

/-! ## Dispatch-pipeline structural lemmas -/

theorem dispatchToWorker_eq (poolSize : Nat) (connected : Nat → Bool)
    (clients : List (String × ClientInfo)) (cache : List (String × CacheEntry))
    (cursor : Nat) (headers : List (String × String)) (url : String) :
    dispatchToWorker poolSize connected clients cache cursor headers url =
      if connected cursor then
        { outcome := .forwarded (buildPayload headers url) cursor,
          clients := clients, cache := cache, cursor := (cursor + 1) % poolSize }
      else
        { outcome := .unavailable, clients := clients, cache := cache,
          cursor := (cursor + 1) % poolSize } := rfl

theorem dispatchToWorker_clients (poolSize : Nat) (connected : Nat → Bool)
    (clients : List (String × ClientInfo)) (cache : List (String × CacheEntry))
    (cursor : Nat) (headers : List (String × String)) (url : String) :
    (dispatchToWorker poolSize connected clients cache cursor headers url).clients
      = clients := by
  rw [dispatchToWorker_eq]
  split <;> rfl

theorem dispatchToWorker_outcome (poolSize : Nat) (connected : Nat → Bool)
    (clients : List (String × ClientInfo)) (cache : List (String × CacheEntry))
    (cursor : Nat) (headers : List (String × String)) (url : String) :
    (dispatchToWorker poolSize connected clients cache cursor headers url).outcome
        = .forwarded (buildPayload headers url) cursor ∨
      (dispatchToWorker poolSize connected clients cache cursor headers url).outcome
        = .unavailable := by
  rw [dispatchToWorker_eq]
  split
  · exact Or.inl rfl
  · exact Or.inr rfl

theorem dispatchToWorker_cursor (poolSize : Nat) (connected : Nat → Bool)
    (clients : List (String × ClientInfo)) (cache : List (String × CacheEntry))
    (cursor : Nat) (headers : List (String × String)) (url : String) :
    (dispatchToWorker poolSize connected clients cache cursor headers url).cursor
      = (cursor + 1) % poolSize := by
  rw [dispatchToWorker_eq]
  split <;> rfl

theorem cacheAndDispatch_none_eq (poolSize : Nat) (connected : Nat → Bool)
    (clients : List (String × ClientInfo)) (cache : List (String × CacheEntry))
    (cursor : Nat) (headers : List (String × String)) (url : String) (now : Nat) :
    cacheAndDispatch none poolSize connected clients cache cursor headers url now
      = dispatchToWorker poolSize connected clients cache cursor headers url := rfl

theorem cacheAndDispatch_some_eq (cc : CacheConfig) (poolSize : Nat)
    (connected : Nat → Bool) (clients : List (String × ClientInfo))
    (cache : List (String × CacheEntry)) (cursor : Nat)
    (headers : List (String × String)) (url : String) (now : Nat) :
    cacheAndDispatch (some cc) poolSize connected clients cache cursor headers
        url now =
      if cc.enabled then
        match mapLookup url cache with
        | some entry =>
          if now < entry.expirationTime then
            { outcome := .cacheHit entry.data,
              clients := clients, cache := cache, cursor := cursor }
          else
            dispatchToWorker poolSize connected clients (mapErase url cache)
              cursor headers url
        | none =>
          dispatchToWorker poolSize connected clients (mapErase url cache)
            cursor headers url
      else
        dispatchToWorker poolSize connected clients cache cursor headers url := rfl

theorem cacheAndDispatch_clients (activeCC : Option CacheConfig) (poolSize : Nat)
    (connected : Nat → Bool) (clients : List (String × ClientInfo))
    (cache : List (String × CacheEntry)) (cursor : Nat)
    (headers : List (String × String)) (url : String) (now : Nat) :
    (cacheAndDispatch activeCC poolSize connected clients cache cursor headers
      url now).clients = clients := by
  cases activeCC with
  | none =>
    rw [cacheAndDispatch_none_eq]
    exact dispatchToWorker_clients ..
  | some cc =>
    rw [cacheAndDispatch_some_eq]
    split
    · split
      · split
        · rfl
        · exact dispatchToWorker_clients ..
      · exact dispatchToWorker_clients ..
    · exact dispatchToWorker_clients ..

theorem cacheAndDispatch_not_rateLimited (activeCC : Option CacheConfig)
    (poolSize : Nat) (connected : Nat → Bool)
    (clients : List (String × ClientInfo)) (cache : List (String × CacheEntry))
    (cursor : Nat) (headers : List (String × String)) (url : String) (now : Nat) :
    (cacheAndDispatch activeCC poolSize connected clients cache cursor headers
      url now).outcome ≠ .rateLimited := by
  cases activeCC with
  | none =>
    rw [cacheAndDispatch_none_eq]
    rcases dispatchToWorker_outcome .. with h | h <;> rw [h] <;> intro h2 <;>
      cases h2
  | some cc =>
    rw [cacheAndDispatch_some_eq]
    split
    · split
      · split
        · intro h
          cases h
        · rcases dispatchToWorker_outcome .. with h | h <;> rw [h] <;> intro h2 <;>
            cases h2
      · rcases dispatchToWorker_outcome .. with h | h <;> rw [h] <;> intro h2 <;>
          cases h2
    · rcases dispatchToWorker_outcome .. with h | h <;> rw [h] <;> intro h2 <;>
        cases h2

theorem dispatchToWorker_not_cacheHit {poolSize : Nat} {connected : Nat → Bool}
    {clients : List (String × ClientInfo)} {cache : List (String × CacheEntry)}
    {cursor : Nat} {headers : List (String × String)} {url : String}
    {d : String} :
    (dispatchToWorker poolSize connected clients cache cursor headers url).outcome
      ≠ .cacheHit d := by
  rcases dispatchToWorker_outcome poolSize connected clients cache cursor headers
      url with h | h <;> rw [h] <;> exact fun h2 => Outcome.noConfusion h2

theorem dispatchToWorker_forwarded {poolSize : Nat} {connected : Nat → Bool}
    {clients : List (String × ClientInfo)} {cache : List (String × CacheEntry)}
    {cursor : Nat} {headers : List (String × String)} {url : String}
    {p : WorkerMessage} {k : Nat}
    (hout : (dispatchToWorker poolSize connected clients cache cursor headers
      url).outcome = .forwarded p k) :
    p = buildPayload headers url ∧ k = cursor := by
  rw [dispatchToWorker_eq] at hout
  by_cases hc : connected cursor = true
  · rw [if_pos hc] at hout
    injection hout with h1 h2
    exact ⟨h1.symm, h2.symm⟩
  · rw [if_neg hc] at hout
    exact absurd hout (fun h2 => Outcome.noConfusion h2)

theorem cacheAndDispatch_cases (activeCC : Option CacheConfig) (poolSize : Nat)
    (connected : Nat → Bool) (clients : List (String × ClientInfo))
    (cache : List (String × CacheEntry)) (cursor : Nat)
    (headers : List (String × String)) (url : String) (now : Nat) :
    (∃ cache2,
      cacheAndDispatch activeCC poolSize connected clients cache cursor headers
          url now =
        dispatchToWorker poolSize connected clients cache2 cursor headers url) ∨
    (∃ cc entry, activeCC = some cc ∧ cc.enabled = true ∧
      mapLookup url cache = some entry ∧ now < entry.expirationTime ∧
      cacheAndDispatch activeCC poolSize connected clients cache cursor headers
          url now =
        { outcome := .cacheHit entry.data, clients := clients, cache := cache,
          cursor := cursor }) := by
  cases activeCC with
  | none => exact Or.inl ⟨cache, cacheAndDispatch_none_eq ..⟩
  | some cc =>
    by_cases he : cc.enabled = true
    · cases hm : mapLookup url cache with
      | none =>
        refine Or.inl ⟨mapErase url cache, ?_⟩
        simp [cacheAndDispatch_some_eq, he, hm]
      | some entry =>
        by_cases hfresh : now < entry.expirationTime
        · refine Or.inr ⟨cc, entry, rfl, he, rfl, hfresh, ?_⟩
          simp [cacheAndDispatch_some_eq, he, hm, hfresh]
        · refine Or.inl ⟨mapErase url cache, ?_⟩
          simp [cacheAndDispatch_some_eq, he, hm, hfresh]
    · refine Or.inl ⟨cache, ?_⟩
      rw [cacheAndDispatch_some_eq, if_neg he]

theorem cacheAndDispatch_cacheHit {activeCC : Option CacheConfig}
    {poolSize : Nat} {connected : Nat → Bool}
    {clients : List (String × ClientInfo)} {cache : List (String × CacheEntry)}
    {cursor : Nat} {headers : List (String × String)} {url : String} {now : Nat}
    {d : String}
    (hout : (cacheAndDispatch activeCC poolSize connected clients cache cursor
      headers url now).outcome = .cacheHit d) :
    ∃ cc entry, activeCC = some cc ∧ cc.enabled = true ∧
      mapLookup url cache = some entry ∧ entry.data = d ∧
      now < entry.expirationTime ∧
      cacheAndDispatch activeCC poolSize connected clients cache cursor headers
        url now =
        { outcome := .cacheHit d, clients := clients, cache := cache,
          cursor := cursor } := by
  rcases cacheAndDispatch_cases activeCC poolSize connected clients cache cursor
      headers url now with ⟨cache2, heq⟩ | ⟨cc, entry, hcc, he, hm, hfresh, heq⟩
  · rw [heq] at hout
    exact absurd hout dispatchToWorker_not_cacheHit
  · rw [heq] at hout
    have h2 : Outcome.cacheHit entry.data = Outcome.cacheHit d := hout
    have hdata : entry.data = d := by injection h2
    refine ⟨cc, entry, hcc, he, hm, hdata, hfresh, ?_⟩
    rw [heq, hdata]

theorem cacheAndDispatch_forwarded {activeCC : Option CacheConfig}
    {poolSize : Nat} {connected : Nat → Bool}
    {clients : List (String × ClientInfo)} {cache : List (String × CacheEntry)}
    {cursor : Nat} {headers : List (String × String)} {url : String} {now : Nat}
    {p : WorkerMessage} {k : Nat}
    (hout : (cacheAndDispatch activeCC poolSize connected clients cache cursor
      headers url now).outcome = .forwarded p k) :
    p = buildPayload headers url ∧ k = cursor ∧
      (cacheAndDispatch activeCC poolSize connected clients cache cursor headers
        url now).cursor = (cursor + 1) % poolSize := by
  rcases cacheAndDispatch_cases activeCC poolSize connected clients cache cursor
      headers url now with ⟨cache2, heq⟩ | ⟨cc, entry, hcc, he, hm, hfresh, heq⟩
  · rw [heq] at hout ⊢
    obtain ⟨h1, h2⟩ := dispatchToWorker_forwarded hout
    exact ⟨h1, h2, dispatchToWorker_cursor ..⟩
  · rw [heq] at hout
    exact absurd hout (fun h2 => Outcome.noConfusion h2)

/-! ## `handleRequest` reduction lemmas -/

theorem handleRequest_eq_none {cfg : ConfigSchemaType} {poolSize : Nat}
    {connected : Nat → Bool} {clients : List (String × ClientInfo)}
    {cache : List (String × CacheEntry)} {cursor : Nat} {clientIp : String}
    {headers : List (String × String)} {url : String} {now : Nat}
    (hrl : activeRLFor cfg url = none) :
    handleRequest cfg poolSize connected clients cache cursor clientIp headers
        url now =
      cacheAndDispatch (activeCCFor cfg url) poolSize connected clients cache
        cursor headers url now := by
  unfold handleRequest
  rw [hrl]

theorem handleRequest_eq_some {cfg : ConfigSchemaType} {poolSize : Nat}
    {connected : Nat → Bool} {clients : List (String × ClientInfo)}
    {cache : List (String × CacheEntry)} {cursor : Nat} {clientIp : String}
    {headers : List (String × String)} {url : String} {now : Nat}
    {rl : RateLimitConfig} (hrl : activeRLFor cfg url = some rl) :
    handleRequest cfg poolSize connected clients cache cursor clientIp headers
        url now =
      if rl.enabled then
        if (rateLimitStep rl ((mapLookup clientIp clients).getD
            { lastRequestTime := now, requestCount := 0 }) now).1 then
          cacheAndDispatch (activeCCFor cfg url) poolSize connected
            (mapInsert clientIp
              (rateLimitStep rl ((mapLookup clientIp clients).getD
                { lastRequestTime := now, requestCount := 0 }) now).2 clients)
            cache cursor headers url now
        else
          { outcome := .rateLimited,
            clients := if (mapLookup clientIp clients).isSome then
                mapInsert clientIp
                  (rateLimitStep rl ((mapLookup clientIp clients).getD
                    { lastRequestTime := now, requestCount := 0 }) now).2 clients
              else clients,
            cache := cache, cursor := cursor }
      else
        cacheAndDispatch (activeCCFor cfg url) poolSize connected clients cache
          cursor headers url now := by
  unfold handleRequest
  rw [hrl]

theorem handleRequest_rateLimited_iff (cfg : ConfigSchemaType) (poolSize : Nat)
    (connected : Nat → Bool) (clients : List (String × ClientInfo))
    (cache : List (String × CacheEntry)) (cursor : Nat) (clientIp : String)
    (headers : List (String × String)) (url : String) (now : Nat) :
    (handleRequest cfg poolSize connected clients cache cursor clientIp headers
      url now).outcome = .rateLimited ↔
    ∃ rl, activeRLFor cfg url = some rl ∧ rl.enabled = true ∧
      (rateLimitStep rl ((mapLookup clientIp clients).getD
        { lastRequestTime := now, requestCount := 0 }) now).1 = false := by
  cases hrl : activeRLFor cfg url with
  | none =>
    rw [handleRequest_eq_none hrl]
    constructor
    · intro h
      exact False.elim (cacheAndDispatch_not_rateLimited _ _ _ _ _ _ _ _ _ h)
    · rintro ⟨rl, hrl2, -, -⟩
      cases hrl2
  | some rl =>
    rw [handleRequest_eq_some hrl]
    by_cases he : rl.enabled = true
    · rw [if_pos he]
      by_cases hst : (rateLimitStep rl ((mapLookup clientIp clients).getD
          { lastRequestTime := now, requestCount := 0 }) now).1 = true
      · rw [if_pos hst]
        constructor
        · intro h
          exact False.elim (cacheAndDispatch_not_rateLimited _ _ _ _ _ _ _ _ _ h)
        · rintro ⟨rl2, hrl2, -, hst2⟩
          injection hrl2 with hrl3
          rw [← hrl3, hst] at hst2
          cases hst2
      · rw [if_neg hst]
        constructor
        · intro _
          exact ⟨rl, rfl, he, Bool.eq_false_iff.mpr hst⟩
        · intro _
          rfl
    · rw [if_neg he]
      constructor
      · intro h
        exact False.elim (cacheAndDispatch_not_rateLimited _ _ _ _ _ _ _ _ _ h)
      · rintro ⟨rl2, hrl2, he2, -⟩
        injection hrl2 with hrl3
        rw [← hrl3] at he2
        exact absurd he2 he

theorem handleRequest_cacheHit {cfg : ConfigSchemaType} {poolSize : Nat}
    {connected : Nat → Bool} {clients : List (String × ClientInfo)}
    {cache : List (String × CacheEntry)} {cursor : Nat} {clientIp : String}
    {headers : List (String × String)} {url : String} {now : Nat} {d : String}
    (hout : (handleRequest cfg poolSize connected clients cache cursor clientIp
      headers url now).outcome = .cacheHit d) :
    ∃ cc entry, activeCCFor cfg url = some cc ∧ cc.enabled = true ∧
      mapLookup url cache = some entry ∧ entry.data = d ∧
      now < entry.expirationTime ∧
      (handleRequest cfg poolSize connected clients cache cursor clientIp
        headers url now).cache = cache ∧
      (handleRequest cfg poolSize connected clients cache cursor clientIp
        headers url now).cursor = cursor := by
  cases hrl : activeRLFor cfg url with
  | none =>
    rw [handleRequest_eq_none hrl] at hout ⊢
    obtain ⟨cc, entry, hcc, he, hm, hd, hf, heq⟩ := cacheAndDispatch_cacheHit hout
    exact ⟨cc, entry, hcc, he, hm, hd, hf, by rw [heq], by rw [heq]⟩
  | some rl =>
    rw [handleRequest_eq_some hrl] at hout ⊢
    by_cases he2 : rl.enabled = true
    · rw [if_pos he2] at hout ⊢
      by_cases hst : (rateLimitStep rl ((mapLookup clientIp clients).getD
          { lastRequestTime := now, requestCount := 0 }) now).1 = true
      · rw [if_pos hst] at hout ⊢
        obtain ⟨cc, entry, hcc, he, hm, hd, hf, heq⟩ :=
          cacheAndDispatch_cacheHit hout
        exact ⟨cc, entry, hcc, he, hm, hd, hf, by rw [heq], by rw [heq]⟩
      · rw [if_neg hst] at hout
        exact absurd hout (fun h => Outcome.noConfusion h)
    · rw [if_neg he2] at hout ⊢
      obtain ⟨cc, entry, hcc, he, hm, hd, hf, heq⟩ := cacheAndDispatch_cacheHit hout
      exact ⟨cc, entry, hcc, he, hm, hd, hf, by rw [heq], by rw [heq]⟩

theorem handleRequest_cacheHit_clients {cfg : ConfigSchemaType} {poolSize : Nat}
    {connected : Nat → Bool} {clients : List (String × ClientInfo)}
    {cache : List (String × CacheEntry)} {cursor : Nat} {clientIp : String}
    {headers : List (String × String)} {url : String} {now : Nat}
    {rl : RateLimitConfig} {d : String}
    (hrl : activeRLFor cfg url = some rl) (he : rl.enabled = true)
    (hout : (handleRequest cfg poolSize connected clients cache cursor clientIp
      headers url now).outcome = .cacheHit d) :
    (rateLimitStep rl ((mapLookup clientIp clients).getD
      { lastRequestTime := now, requestCount := 0 }) now).1 = true ∧
    (handleRequest cfg poolSize connected clients cache cursor clientIp headers
      url now).clients =
      mapInsert clientIp
        (rateLimitStep rl ((mapLookup clientIp clients).getD
          { lastRequestTime := now, requestCount := 0 }) now).2 clients := by
  rw [handleRequest_eq_some hrl, if_pos he] at hout ⊢
  by_cases hst : (rateLimitStep rl ((mapLookup clientIp clients).getD
      { lastRequestTime := now, requestCount := 0 }) now).1 = true
  · rw [if_pos hst] at hout ⊢
    exact ⟨hst, cacheAndDispatch_clients ..⟩
  · rw [if_neg hst] at hout
    exact absurd hout (fun h => Outcome.noConfusion h)

theorem handleRequest_forwarded {cfg : ConfigSchemaType} {poolSize : Nat}
    {connected : Nat → Bool} {clients : List (String × ClientInfo)}
    {cache : List (String × CacheEntry)} {cursor : Nat} {clientIp : String}
    {headers : List (String × String)} {url : String} {now : Nat}
    {p : WorkerMessage} {k : Nat}
    (hout : (handleRequest cfg poolSize connected clients cache cursor clientIp
      headers url now).outcome = .forwarded p k) :
    p = buildPayload headers url ∧ k = cursor ∧
      (handleRequest cfg poolSize connected clients cache cursor clientIp
        headers url now).cursor = (cursor + 1) % poolSize := by
  cases hrl : activeRLFor cfg url with
  | none =>
    rw [handleRequest_eq_none hrl] at hout ⊢
    exact cacheAndDispatch_forwarded hout
  | some rl =>
    rw [handleRequest_eq_some hrl] at hout ⊢
    by_cases he : rl.enabled = true
    · rw [if_pos he] at hout ⊢
      by_cases hst : (rateLimitStep rl ((mapLookup clientIp clients).getD
          { lastRequestTime := now, requestCount := 0 }) now).1 = true
      · rw [if_pos hst] at hout ⊢
        exact cacheAndDispatch_forwarded hout
      · rw [if_neg hst] at hout
        exact absurd hout (fun h => Outcome.noConfusion h)
    · rw [if_neg he] at hout ⊢
      exact cacheAndDispatch_forwarded hout

theorem handleRequest_rateLimited_state {cfg : ConfigSchemaType} {poolSize : Nat}
    {connected : Nat → Bool} {clients : List (String × ClientInfo)}
    {cache : List (String × CacheEntry)} {cursor : Nat} {clientIp : String}
    {headers : List (String × String)} {url : String} {now : Nat}
    (hout : (handleRequest cfg poolSize connected clients cache cursor clientIp
      headers url now).outcome = .rateLimited) :
    ∃ rl, activeRLFor cfg url = some rl ∧ rl.enabled = true ∧
      handleRequest cfg poolSize connected clients cache cursor clientIp headers
          url now =
        { outcome := .rateLimited,
          clients := if (mapLookup clientIp clients).isSome then
              mapInsert clientIp
                (rollInfo rl ((mapLookup clientIp clients).getD
                  { lastRequestTime := now, requestCount := 0 }) now) clients
            else clients,
          cache := cache, cursor := cursor } := by
  obtain ⟨rl, hrl, he, hst⟩ := (handleRequest_rateLimited_iff cfg poolSize
    connected clients cache cursor clientIp headers url now).mp hout
  refine ⟨rl, hrl, he, ?_⟩
  rw [handleRequest_eq_some hrl, if_pos he, if_neg (by simp [hst]),
    rateLimitStep_false _ _ _ hst]

theorem handleRequest_clients_other {cfg : ConfigSchemaType} {poolSize : Nat}
    {connected : Nat → Bool} {clients : List (String × ClientInfo)}
    {cache : List (String × CacheEntry)} {cursor : Nat} {clientIp : String}
    {headers : List (String × String)} {url : String} {now : Nat}
    (ip2 : String) (hne : ip2 ≠ clientIp) :
    mapLookup ip2 (handleRequest cfg poolSize connected clients cache cursor
      clientIp headers url now).clients = mapLookup ip2 clients := by
  cases hrl : activeRLFor cfg url with
  | none => rw [handleRequest_eq_none hrl, cacheAndDispatch_clients]
  | some rl =>
    rw [handleRequest_eq_some hrl]
    by_cases he : rl.enabled = true
    · rw [if_pos he]
      by_cases hst : (rateLimitStep rl ((mapLookup clientIp clients).getD
          { lastRequestTime := now, requestCount := 0 }) now).1 = true
      · rw [if_pos hst, cacheAndDispatch_clients]
        exact mapLookup_insert_ne _ _ _ _ hne
      · rw [if_neg hst]
        dsimp only
        by_cases hex : (mapLookup clientIp clients).isSome = true
        · rw [if_pos hex]
          exact mapLookup_insert_ne _ _ _ _ hne
        · rw [if_neg hex]
    · rw [if_neg he, cacheAndDispatch_clients]

/-! ## Worker-handler reduction lemmas -/

theorem workerHandle_invalid {cfg : ConfigSchemaType} {j : JValue} {b : String}
    (hv : validateWorkerMessage j = none) :
    workerHandle cfg j b =
      { data := none, error := some "Message Parsing Error",
        errorCode := some "400" } := by
  unfold workerHandle
  rw [hv]

theorem workerHandle_valid {cfg : ConfigSchemaType} {j : JValue} {b : String}
    {msg : WorkerMessage} (hv : validateWorkerMessage j = some msg) :
    workerHandle cfg j b = workerResolve cfg msg b := by
  unfold workerHandle
  rw [hv]

theorem workerResolve_noRule {cfg : ConfigSchemaType} {msg : WorkerMessage}
    {b : String} (hr : ruleFor cfg msg.url = none) :
    workerResolve cfg msg b =
      { data := none, error := some "Rule Not Found", errorCode := some "404" } := by
  unfold workerResolve
  rw [hr]

theorem workerResolve_someRule {cfg : ConfigSchemaType} {msg : WorkerMessage}
    {b : String} {rule : Rule} (hr : ruleFor cfg msg.url = some rule) :
    workerResolve cfg msg b =
      match rule.upstreams.head? with
      | none =>
        { data := none, error := some "Upstream ID Not Found", errorCode := some "500" }
      | some uid =>
        if uid = "" then
          { data := none, error := some "Upstream ID Not Found", errorCode := some "500" }
        else
          match cfg.server.upstreams.find? (fun u => decide (u.id = uid)) with
          | none =>
            { data := none, error := some "Upstream Not Found", errorCode := some "500" }
          | some _ =>
            { data := some b, error := none, errorCode := none } := by
  unfold workerResolve
  rw [hr]

/-! ## Rate-limit trace lemmas -/

theorem runRequests_nil (rl : RateLimitConfig) (info : ClientInfo) :
    runRequests rl info [] = ([], info) := rfl

theorem runRequests_cons (rl : RateLimitConfig) (info : ClientInfo) (t : Nat)
    (rest : List Nat) :
    runRequests rl info (t :: rest) =
      ((rateLimitStep rl info t).1 ::
        (runRequests rl (rateLimitStep rl info t).2 rest).1,
       (runRequests rl (rateLimitStep rl info t).2 rest).2) := rfl

theorem gapsWithin_cons (W prev t : Nat) (rest : List Nat) :
    gapsWithin W prev (t :: rest) =
      (decide (t - prev ≤ W) && gapsWithin W t rest) := rfl

theorem gapsWithin_append_last (W : Nat) :
    ∀ (xs : List Nat) (t0 y : Nat), gapsWithin W t0 (xs ++ [y]) = true →
      gapsWithin W t0 xs = true ∧ y - xs.getLastD t0 ≤ W := by
  intro xs
  induction xs with
  | nil =>
    intro t0 y h
    rw [List.nil_append, gapsWithin_cons] at h
    simp only [Bool.and_eq_true, decide_eq_true_eq] at h
    exact ⟨rfl, h.1⟩
  | cons x xs ih =>
    intro t0 y h
    rw [List.cons_append, gapsWithin_cons, Bool.and_eq_true] at h
    obtain ⟨h1, h2⟩ := h
    obtain ⟨h3, h4⟩ := ih x y h2
    refine ⟨?_, ?_⟩
    · rw [gapsWithin_cons, Bool.and_eq_true]
      exact ⟨h1, h3⟩
    · rw [List.getLastD_cons]
      exact h4

theorem runRequests_accept_all (rl : RateLimitConfig) :
    ∀ (ts : List Nat) (t0 c : Nat), gapsWithin rl.timeWindow t0 ts = true →
      c + ts.length ≤ rl.maxRequests →
      runRequests rl { lastRequestTime := t0, requestCount := c } ts =
        (List.replicate ts.length true,
         { lastRequestTime := ts.getLastD t0, requestCount := c + ts.length }) := by
  intro ts
  induction ts with
  | nil =>
    intro t0 c _ _
    rw [runRequests_nil]
    rfl
  | cons t rest ih =>
    intro t0 c hg hc
    rw [gapsWithin_cons, Bool.and_eq_true, decide_eq_true_eq] at hg
    obtain ⟨h1, h2⟩ := hg
    have hroll : rollInfo rl { lastRequestTime := t0, requestCount := c } t =
        { lastRequestTime := t0, requestCount := c } := by
      rw [rollInfo, if_neg]
      show ¬ (rl.timeWindow < t - t0)
      omega
    have hlen : c + (t :: rest).length = c + rest.length + 1 := by
      rw [List.length_cons]
      omega
    have hstep : rateLimitStep rl { lastRequestTime := t0, requestCount := c } t =
        (true, { lastRequestTime := t, requestCount := c + 1 }) := by
      rw [rateLimitStep_eq, hroll, if_neg]
      show ¬ (rl.maxRequests ≤ c)
      rw [List.length_cons] at hc
      omega
    rw [runRequests_cons, hstep]
    have hrec := ih t (c + 1) h2 (by rw [List.length_cons] at hc; omega)
    rw [hrec]
    rw [List.length_cons, List.getLastD_cons, List.replicate_succ]
    have harith : c + 1 + rest.length = c + (rest.length + 1) := by omega
    rw [harith]

theorem runRequests_append (rl : RateLimitConfig) :
    ∀ (xs ys : List Nat) (info : ClientInfo),
      runRequests rl info (xs ++ ys) =
        ((runRequests rl info xs).1 ++
          (runRequests rl (runRequests rl info xs).2 ys).1,
         (runRequests rl (runRequests rl info xs).2 ys).2) := by
  intro xs
  induction xs with
  | nil =>
    intro ys info
    rw [List.nil_append, runRequests_nil]
    rfl
  | cons x xs ih =>
    intro ys info
    rw [List.cons_append, runRequests_cons, runRequests_cons, ih, List.cons_append]

/-! ## Round-robin counting lemmas -/

theorem selections_succ (P m s : Nat) :
    selections P (m + 1) s = s :: selections P m ((s + 1) % P) := rfl

theorem selections_eq_range_map (P : Nat) (M : Nat) : ∀ (j : Nat),
    selections P M (j % P) = (List.range' j M).map (fun i => i % P) := by
  induction M with
  | zero => intro j; rfl
  | succ m ih =>
    intro j
    rw [selections_succ, List.range'_succ, List.map_cons, Nat.mod_add_mod,
      ih (j + 1)]

theorem selections_from_zero (P M : Nat) :
    selections P M 0 = (List.range M).map (fun i => i % P) := by
  have h := selections_eq_range_map P M 0
  rw [Nat.zero_mod] at h
  rw [h, List.range_eq_range']

theorem count_range_mod (P k : Nat) (hP : 0 < P) (hk : k < P) : ∀ (M : Nat),
    List.count k ((List.range M).map (fun i => i % P)) =
      M / P + (if k < M % P then 1 else 0) := by
  intro M
  induction M with
  | zero => simp
  | succ m ih =>
    rw [List.range_succ, List.map_append, List.count_append, ih]
    have hsingle : List.count k ((List.map (fun i => i % P) [m])) =
        if m % P = k then 1 else 0 := by
      by_cases hmk : m % P = k
      · simp [hmk]
      · simp [List.count_cons, hmk]
    rw [hsingle]
    have hmod : m % P < P := Nat.mod_lt m hP
    have hdm := Nat.div_add_mod m P
    by_cases hr : m % P + 1 = P
    · have h1 : m + 1 = P * (m / P + 1) := by
        rw [Nat.mul_add, Nat.mul_one]
        generalize P * (m / P) = A at hdm ⊢
        omega
      have hdiv : (m + 1) / P = m / P + 1 := by
        rw [h1, Nat.mul_div_cancel_left _ hP]
      have hmod2 : (m + 1) % P = 0 := by
        rw [h1, Nat.mul_mod_right]
      rw [hdiv, hmod2]
      split_ifs <;> omega
    · have hlt : m % P + 1 < P := by omega
      have h1 : m + 1 = P * (m / P) + (m % P + 1) := by
        generalize P * (m / P) = A at hdm ⊢
        omega
      have hdiv : (m + 1) / P = m / P := by
        rw [h1, Nat.mul_add_div hP, Nat.div_eq_of_lt hlt, Nat.add_zero]
      have hmod2 : (m + 1) % P = m % P + 1 := by
        rw [h1, Nat.mul_add_mod, Nat.mod_eq_of_lt hlt]
      rw [hdiv, hmod2]
      split_ifs <;> omega

/-! ## String lemmas for the cache key -/

theorem string_append_left_cancel {p a b : String} (h : p ++ a = p ++ b) :
    a = b := by
  have hd := congrArg String.data h
  rw [String.data_append, String.data_append] at hd
  exact String.ext (List.append_cancel_left hd)

theorem empty_ne_query (b : String) : "" ≠ "?" ++ b := by
  intro h
  have hd := congrArg String.data h
  rw [String.data_append] at hd
  exact List.noConfusion hd

/-! ## Claim C1 -/

/-- C1: the claim states that every forwarded request carries a freshly
generated `correlationId` and that a reply completes exactly the matching
pending response.  The code has no correlation mechanism at all: the wire
message built for a request is exactly the four-field `workerMessageSchema`
payload (no correlation-id field), and because a fresh, never-removed
`worker.on("message", ...)` listener is registered per request, a single
reply is broadcast to all listeners and completes every pending client
response.  Concretely: with clients 0 and 1 both awaiting replies on the
same worker, delivering the reply meant for client 1 ends client 0's
response with client 1's data. -/
theorem correlation_broadcast_code_bug :
    deliver { data := some "reply-for-B", error := none, errorCode := none }
        [{ clientId := 0, completed := none }, { clientId := 1, completed := none }] =
      [{ clientId := 0,
         completed := some { data := some "reply-for-B", error := none, errorCode := none } },
       { clientId := 1,
         completed := some { data := some "reply-for-B", error := none, errorCode := none } }] ∧
    (handleRequest
        { server := { listen := 8080, workers := none,
                      upstreams := [{ id := "node1", url := "http://localhost:3000" }],
                      rules := [{ path := "/a", upstreams := ["node1"],
                                  rateLimit := none, cache := none }] },
          rateLimit := none, cache := none }
        3 (fun _ => true) [] [] 0 "9.9.9.9" [] "/a" 0).outcome =
      .forwarded { requestType := "http", headers := [], body := "", url := "/a" } 0 :=
  ⟨rfl, rfl⟩

/-! ## Claim C2 -/

/-- C2 (amended): for every client under an enabled rate-limit config with
`maxRequests = n ≥ 1` and `timeWindow = W`: after `n` accepted requests each
within `W` of its predecessor, the `(n+1)`-th request within `W` of the
previous accepted request is rejected (and a rejection is answered with
status 429 "Too Many Requests"), and a request arriving with
`now - lastRequestTime > W` is accepted with the request count reset and
then set to 1.  The amendment restricts the rollover-acceptance part to
`n ≥ 1`: with `maxRequests = 0` the code rejects even a rolled-over
request. -/
theorem rateLimit_window_correct (rl : RateLimitConfig)
    (hmax : 1 ≤ rl.maxRequests) :
    (∀ (t0 tlast : Nat) (ts : List Nat), ts.length = rl.maxRequests →
       gapsWithin rl.timeWindow t0 (ts ++ [tlast]) = true →
       (runRequests rl { lastRequestTime := t0, requestCount := 0 }
         (ts ++ [tlast])).1 =
         List.replicate rl.maxRequests true ++ [false]) ∧
    (∀ (info : ClientInfo) (now : Nat),
       rl.timeWindow < now - info.lastRequestTime →
       rateLimitStep rl info now =
         (true, { lastRequestTime := now, requestCount := 1 })) ∧
    (∀ (cfg : ConfigSchemaType) (poolSize : Nat) (connected : Nat → Bool)
       (clients : List (String × ClientInfo))
       (cache : List (String × CacheEntry)) (cursor : Nat) (clientIp : String)
       (headers : List (String × String)) (url : String) (now : Nat),
       activeRLFor cfg url = some rl → rl.enabled = true →
       (rateLimitStep rl ((mapLookup clientIp clients).getD
         { lastRequestTime := now, requestCount := 0 }) now).1 = false →
       responseOf (handleRequest cfg poolSize connected clients cache cursor
         clientIp headers url now).outcome = some (429, "Too Many Requests")) := by
  refine ⟨?_, ?_, ?_⟩
  · intro t0 tlast ts hlen hg
    obtain ⟨hga, hgl⟩ := gapsWithin_append_last rl.timeWindow ts t0 tlast hg
    have hacc := runRequests_accept_all rl ts t0 0 hga (by omega)
    rw [runRequests_append, hacc]
    dsimp only
    have hstep : rateLimitStep rl
        { lastRequestTime := ts.getLastD t0, requestCount := 0 + ts.length }
        tlast =
        (false, { lastRequestTime := ts.getLastD t0,
                  requestCount := 0 + ts.length }) := by
      have hroll : rollInfo rl
          { lastRequestTime := ts.getLastD t0, requestCount := 0 + ts.length }
          tlast =
          { lastRequestTime := ts.getLastD t0, requestCount := 0 + ts.length } := by
        rw [rollInfo, if_neg]
        show ¬ (rl.timeWindow < tlast - ts.getLastD t0)
        omega
      rw [rateLimitStep_eq, hroll, if_pos]
      show rl.maxRequests ≤ 0 + ts.length
      omega
    rw [runRequests_cons, hstep]
    dsimp only
    rw [runRequests_nil, hlen]
  · intro info now hro
    have hroll : rollInfo rl info now =
        { lastRequestTime := info.lastRequestTime, requestCount := 0 } := by
      rw [rollInfo, if_pos hro]
    rw [rateLimitStep_eq, hroll, if_neg]
    show ¬ (rl.maxRequests ≤ 0)
    omega
  · intro cfg poolSize connected clients cache cursor clientIp headers url now
      hrl he hst
    have hout := (handleRequest_rateLimited_iff cfg poolSize connected clients
      cache cursor clientIp headers url now).mpr ⟨rl, hrl, he, hst⟩
    rw [hout]
    rfl

/-- C2 counterexample to the claim as stated: with `maxRequests = 0` the
request following a window rollover (`now - lastRequestTime = 100 > 5 = W`)
is rejected, not "accepted with the counter set to 1", both at the
rate-limiter step itself and through the full request handler. -/
theorem rateLimit_zero_max_rollover_cex :
    rateLimitStep { enabled := true, maxRequests := 0, timeWindow := 5 }
        { lastRequestTime := 0, requestCount := 3 } 100 =
      (false, { lastRequestTime := 0, requestCount := 0 }) ∧
    (5 : Nat) < 100 - 0 ∧
    (handleRequest
        { server := { listen := 8080, workers := none, upstreams := [],
                      rules := [] },
          rateLimit := some { enabled := true, maxRequests := 0, timeWindow := 5 },
          cache := none }
        1 (fun _ => true)
        [("1.2.3.4", { lastRequestTime := 0, requestCount := 3 })] [] 0
        "1.2.3.4" [] "/x" 100).outcome = .rateLimited :=
  ⟨rfl, by omega, rfl⟩

/-- C2 witness: the two-request window `maxRequests = 2, timeWindow = 100`
rejects the third chained request, accepts after a rollover, and a rejected
request is answered 429 through the handler. -/
theorem rateLimit_window_correct_witness :
    (runRequests { enabled := true, maxRequests := 2, timeWindow := 100 }
        { lastRequestTime := 0, requestCount := 0 } ([10, 20] ++ [30])).1 =
      List.replicate 2 true ++ [false] ∧
    rateLimitStep { enabled := true, maxRequests := 2, timeWindow := 100 }
        { lastRequestTime := 0, requestCount := 2 } 201 =
      (true, { lastRequestTime := 201, requestCount := 1 }) ∧
    responseOf (handleRequest
        { server := { listen := 8080, workers := none, upstreams := [],
                      rules := [] },
          rateLimit := some { enabled := true, maxRequests := 2, timeWindow := 100 },
          cache := none }
        1 (fun _ => true)
        [("1.2.3.4", { lastRequestTime := 0, requestCount := 2 })] [] 0
        "1.2.3.4" [] "/x" 50).outcome = some (429, "Too Many Requests") :=
  ⟨(rateLimit_window_correct
      { enabled := true, maxRequests := 2, timeWindow := 100 } (by decide)).1
      0 30 [10, 20] (by decide) (by decide),
   (rateLimit_window_correct
      { enabled := true, maxRequests := 2, timeWindow := 100 } (by decide)).2.1
      { lastRequestTime := 0, requestCount := 2 } 201 (by decide),
   (rateLimit_window_correct
      { enabled := true, maxRequests := 2, timeWindow := 100 } (by decide)).2.2
      { server := { listen := 8080, workers := none, upstreams := [],
                    rules := [] },
        rateLimit := some { enabled := true, maxRequests := 2, timeWindow := 100 },
        cache := none }
      1 (fun _ => true)
      [("1.2.3.4", { lastRequestTime := 0, requestCount := 2 })] [] 0
      "1.2.3.4" [] "/x" 50 (by rfl) (by rfl) (by rfl)⟩

/-! ## Claim C3 -/

/-- C3 (amended): serving a request from the cache does NOT skip rate-limit
counting.  The rate limiter runs before the cache lookup, so whenever an
enabled rate-limit config applies and the request is answered by a cache
hit, the client's stored window state is updated to
`{lastRequestTime := now, requestCount := rolled count + 1}` — the count
increments exactly as for a dispatched request.  Conversely a rate-limited
request is rejected even if the cache holds a fresh answer. -/
theorem cacheHit_counts_against_limit :
    (∀ (cfg : ConfigSchemaType) (poolSize : Nat) (connected : Nat → Bool)
       (clients : List (String × ClientInfo))
       (cache : List (String × CacheEntry)) (cursor : Nat) (clientIp : String)
       (headers : List (String × String)) (url : String) (now : Nat)
       (rl : RateLimitConfig) (d : String),
       activeRLFor cfg url = some rl → rl.enabled = true →
       (handleRequest cfg poolSize connected clients cache cursor clientIp
         headers url now).outcome = .cacheHit d →
       mapLookup clientIp (handleRequest cfg poolSize connected clients cache
         cursor clientIp headers url now).clients =
         some { lastRequestTime := now,
                requestCount := (rollInfo rl ((mapLookup clientIp clients).getD
                  { lastRequestTime := now, requestCount := 0 }) now).requestCount
                  + 1 }) ∧
    (∀ (cfg : ConfigSchemaType) (poolSize : Nat) (connected : Nat → Bool)
       (clients : List (String × ClientInfo))
       (cache : List (String × CacheEntry)) (cursor : Nat) (clientIp : String)
       (headers : List (String × String)) (url : String) (now : Nat)
       (rl : RateLimitConfig),
       activeRLFor cfg url = some rl → rl.enabled = true →
       (rateLimitStep rl ((mapLookup clientIp clients).getD
         { lastRequestTime := now, requestCount := 0 }) now).1 = false →
       (handleRequest cfg poolSize connected clients cache cursor clientIp
         headers url now).outcome = .rateLimited) := by
  constructor
  · intro cfg poolSize connected clients cache cursor clientIp headers url now
      rl d hrl he hout
    obtain ⟨hst, hcl⟩ := handleRequest_cacheHit_clients hrl he hout
    rw [hcl, rateLimitStep_true _ _ _ hst, mapLookup_insert_self]
  · intro cfg poolSize connected clients cache cursor clientIp headers url now
      rl hrl he hst
    exact (handleRequest_rateLimited_iff cfg poolSize connected clients cache
      cursor clientIp headers url now).mpr ⟨rl, hrl, he, hst⟩

/-- C3 counterexample to the claim as stated: a request answered by a cache
hit (`"hello"`, stored unexpired) still increments the client's
`requestCount` from 2 to 3 — the count is not "the same after the request
as before it". -/
theorem cacheHit_increments_count_cex :
    (handleRequest
        { server := { listen := 8080, workers := none, upstreams := [],
                      rules := [] },
          rateLimit := some { enabled := true, maxRequests := 5, timeWindow := 60000 },
          cache := some { enabled := true, maxSize := 100, expirationTime := 30000 } }
        2 (fun _ => true)
        [("1.2.3.4", { lastRequestTime := 5, requestCount := 2 })]
        [("/x", { data := "hello", expirationTime := 1000 })] 0
        "1.2.3.4" [] "/x" 10).outcome = .cacheHit "hello" ∧
    mapLookup "1.2.3.4" (handleRequest
        { server := { listen := 8080, workers := none, upstreams := [],
                      rules := [] },
          rateLimit := some { enabled := true, maxRequests := 5, timeWindow := 60000 },
          cache := some { enabled := true, maxSize := 100, expirationTime := 30000 } }
        2 (fun _ => true)
        [("1.2.3.4", { lastRequestTime := 5, requestCount := 2 })]
        [("/x", { data := "hello", expirationTime := 1000 })] 0
        "1.2.3.4" [] "/x" 10).clients =
      some { lastRequestTime := 10, requestCount := 3 } ∧
    (3 : Nat) ≠ 2 :=
  ⟨rfl, rfl, by omega⟩

/-- C3 witness: the amended theorem applied at the concrete cache-hit
input. -/
theorem cacheHit_counts_against_limit_witness :
    mapLookup "1.2.3.4" (handleRequest
        { server := { listen := 8080, workers := none, upstreams := [],
                      rules := [] },
          rateLimit := some { enabled := true, maxRequests := 5, timeWindow := 60000 },
          cache := some { enabled := true, maxSize := 100, expirationTime := 30000 } }
        2 (fun _ => true)
        [("1.2.3.4", { lastRequestTime := 5, requestCount := 2 })]
        [("/x", { data := "hello", expirationTime := 1000 })] 0
        "1.2.3.4" [] "/x" 10).clients =
      some { lastRequestTime := 10, requestCount := 3 } :=
  cacheHit_counts_against_limit.1
    { server := { listen := 8080, workers := none, upstreams := [],
                  rules := [] },
      rateLimit := some { enabled := true, maxRequests := 5, timeWindow := 60000 },
      cache := some { enabled := true, maxSize := 100, expirationTime := 30000 } }
    2 (fun _ => true)
    [("1.2.3.4", { lastRequestTime := 5, requestCount := 2 })]
    [("/x", { data := "hello", expirationTime := 1000 })] 0
    "1.2.3.4" [] "/x" 10
    { enabled := true, maxRequests := 5, timeWindow := 60000 } "hello"
    (by rfl) (by rfl) (by rfl)

/-! ## Claim C4 -/

/-- C4 (amended): the cache key is the full raw request URL — Node's
`req.url`, i.e. the path plus the query string when present — not the path
alone.  For two targets with the same path, the cache keys coincide exactly
when the query strings coincide; targets differing only in the query string
get distinct keys and therefore distinct cache entries. -/
theorem cacheKey_query_sensitive (t1 t2 : ReqTarget) (hp : t1.path = t2.path) :
    cacheKey t1 = cacheKey t2 ↔ t1.query = t2.query := by
  obtain ⟨p1, q1⟩ := t1
  obtain ⟨p2, q2⟩ := t2
  have hp2 : p1 = p2 := hp
  subst hp2
  constructor
  · intro h
    have h0 : p1 ++ querySuffix q1 = p1 ++ querySuffix q2 := h
    have h2 := string_append_left_cancel h0
    cases q1 with
    | none =>
      cases q2 with
      | none => rfl
      | some b =>
        have h3 : "" = "?" ++ b := h2
        exact absurd h3 (empty_ne_query b)
    | some a =>
      cases q2 with
      | none =>
        have h3 : "?" ++ a = "" := h2
        exact absurd h3.symm (empty_ne_query a)
      | some b =>
        have h3 : "?" ++ a = "?" ++ b := h2
        have h4 : a = b := string_append_left_cancel h3
        rw [h4]
  · intro h
    have h2 : q1 = q2 := h
    subst h2
    rfl

/-- C4 counterexample to the claim as stated: two targets with the same
path `/todos` but different query strings produce different cache keys, so
they do not collide on one cache entry. -/
theorem cacheKey_query_distinct_cex :
    (⟨"/todos", some "a=1"⟩ : ReqTarget).path =
      (⟨"/todos", some "a=2"⟩ : ReqTarget).path ∧
    cacheKey ⟨"/todos", some "a=1"⟩ ≠ cacheKey ⟨"/todos", some "a=2"⟩ :=
  ⟨rfl, by decide⟩

/-- C4 witness: the amended key characterisation applied at two concrete
targets sharing the path. -/
theorem cacheKey_query_sensitive_witness :
    cacheKey ⟨"/todos", some "a=1"⟩ = cacheKey ⟨"/todos", some "a=2"⟩ ↔
      (some "a=1" : Option String) = some "a=2" :=
  cacheKey_query_sensitive ⟨"/todos", some "a=1"⟩ ⟨"/todos", some "a=2"⟩ rfl

/-! ## Claim C5 -/

/-- C5 (amended): a cache entry is never served once expired — every
cache-hit response comes from an entry whose `expirationTime` is strictly
greater than the handler's `now` — and the background sweep removes exactly
the entries with `expirationTime ≤ now` (every surviving lookup is fresh,
every fresh entry survives).  The sweep period is the global cache
`expirationTime` when it is configured and nonzero, else 60000 ms.  The
amendment adds "nonzero": JavaScript `expirationTime || 60000` treats a
configured 0 as absent. -/
theorem cache_expiry_and_sweep :
    (∀ (cfg : ConfigSchemaType) (poolSize : Nat) (connected : Nat → Bool)
       (clients : List (String × ClientInfo))
       (cache : List (String × CacheEntry)) (cursor : Nat) (clientIp : String)
       (headers : List (String × String)) (url : String) (now : Nat)
       (d : String),
       (handleRequest cfg poolSize connected clients cache cursor clientIp
         headers url now).outcome = .cacheHit d →
       ∃ entry, mapLookup url cache = some entry ∧ entry.data = d ∧
         now < entry.expirationTime) ∧
    (∀ (now : Nat) (c : List (String × CacheEntry)) (url : String)
       (e : CacheEntry),
       mapLookup url (sweep now c) = some e → now < e.expirationTime) ∧
    (∀ (now : Nat) (c : List (String × CacheEntry)) (url : String)
       (e : CacheEntry),
       mapLookup url c = some e → now < e.expirationTime →
       mapLookup url (sweep now c) = some e) ∧
    (∀ cc : CacheConfig, 0 < cc.expirationTime →
       defaultSweepInterval (some cc) = cc.expirationTime) ∧
    defaultSweepInterval none = 60000 := by
  refine ⟨?_, mapLookup_sweep_fresh, mapLookup_sweep_of_fresh, ?_, rfl⟩
  · intro cfg poolSize connected clients cache cursor clientIp headers url now
      d hout
    obtain ⟨cc, entry, -, -, hm, hd, hf, -, -⟩ := handleRequest_cacheHit hout
    exact ⟨entry, hm, hd, hf⟩
  · intro cc h
    show (if cc.expirationTime = 0 then 60000 else cc.expirationTime) =
      cc.expirationTime
    rw [if_neg (by omega)]

/-- C5 counterexample to the claim as stated: with a global cache config
whose `expirationTime` is 0, the sweep period is 60000 ms, not the
configured value 0. -/
theorem sweepInterval_zero_ttl_cex :
    defaultSweepInterval
        (some { enabled := true, maxSize := 100, expirationTime := 0 }) = 60000 ∧
    defaultSweepInterval
        (some { enabled := true, maxSize := 100, expirationTime := 0 }) ≠ 0 :=
  ⟨rfl, by decide⟩

/-- C5 witness: the amended theorem applied at a concrete cache-hit input,
a concrete sweep, and a concrete nonzero global TTL. -/
theorem cache_expiry_and_sweep_witness :
    (∃ entry, mapLookup "/x"
        ([("/x", { data := "hello", expirationTime := 1000 })] :
          List (String × CacheEntry)) = some entry ∧
        entry.data = "hello" ∧ (10 : Nat) < entry.expirationTime) ∧
    mapLookup "/x" (sweep 10
        [("/x", { data := "hello", expirationTime := 1000 }),
         ("/y", { data := "z", expirationTime := 5 })]) =
      some { data := "hello", expirationTime := 1000 } ∧
    defaultSweepInterval
        (some { enabled := true, maxSize := 100, expirationTime := 30000 }) =
      30000 :=
  ⟨cache_expiry_and_sweep.1
      { server := { listen := 8080, workers := none, upstreams := [],
                    rules := [] },
        rateLimit := none,
        cache := some { enabled := true, maxSize := 100, expirationTime := 30000 } }
      2 (fun _ => true) []
      [("/x", { data := "hello", expirationTime := 1000 })] 0
      "1.2.3.4" [] "/x" 10 "hello" (by rfl),
   cache_expiry_and_sweep.2.2.1 10
      [("/x", { data := "hello", expirationTime := 1000 }),
       ("/y", { data := "z", expirationTime := 5 })]
      "/x" { data := "hello", expirationTime := 1000 } (by rfl) (by decide),
   cache_expiry_and_sweep.2.2.2.1
      { enabled := true, maxSize := 100, expirationTime := 30000 } (by decide)⟩

/-! ## Claim C6 -/

/-- C6: a rate-limit rejection is atomic apart from the window roll: when a
request is answered `429 Too Many Requests`, the cache, the round-robin
cursor, and every other client's window state are untouched, no message is
sent to any worker, and the rejected client's stored state is at most the
window-roll reset of its previous state (same `lastRequestTime`; for a
client with no stored state, the map is unchanged). -/
theorem rateLimit_rejection_frame (cfg : ConfigSchemaType) (poolSize : Nat)
    (connected : Nat → Bool) (clients : List (String × ClientInfo))
    (cache : List (String × CacheEntry)) (cursor : Nat) (clientIp : String)
    (headers : List (String × String)) (url : String) (now : Nat)
    (hout : (handleRequest cfg poolSize connected clients cache cursor clientIp
      headers url now).outcome = .rateLimited) :
    (handleRequest cfg poolSize connected clients cache cursor clientIp headers
      url now).cache = cache ∧
    (handleRequest cfg poolSize connected clients cache cursor clientIp headers
      url now).cursor = cursor ∧
    sentMessage (handleRequest cfg poolSize connected clients cache cursor
      clientIp headers url now).outcome = none ∧
    responseOf (handleRequest cfg poolSize connected clients cache cursor
      clientIp headers url now).outcome = some (429, "Too Many Requests") ∧
    (∀ ip2, ip2 ≠ clientIp →
       mapLookup ip2 (handleRequest cfg poolSize connected clients cache cursor
         clientIp headers url now).clients = mapLookup ip2 clients) ∧
    (mapLookup clientIp clients = none →
       (handleRequest cfg poolSize connected clients cache cursor clientIp
         headers url now).clients = clients) ∧
    (∀ info0, mapLookup clientIp clients = some info0 →
       ∃ rl, activeRLFor cfg url = some rl ∧
         mapLookup clientIp (handleRequest cfg poolSize connected clients cache
           cursor clientIp headers url now).clients =
           some (rollInfo rl info0 now) ∧
         (rollInfo rl info0 now).lastRequestTime = info0.lastRequestTime) := by
  obtain ⟨rl, hrl, he, heq⟩ := handleRequest_rateLimited_state hout
  refine ⟨by rw [heq], by rw [heq], by rw [hout]; rfl, by rw [hout]; rfl,
    fun ip2 h2 => handleRequest_clients_other ip2 h2, ?_, ?_⟩
  · intro hnone
    rw [heq]
    show (if (mapLookup clientIp clients).isSome then _ else clients) = clients
    rw [hnone]
    rfl
  · intro info0 hsome
    refine ⟨rl, hrl, ?_, rollInfo_lastRequestTime ..⟩
    rw [heq]
    show mapLookup clientIp
      (if (mapLookup clientIp clients).isSome then
        mapInsert clientIp
          (rollInfo rl ((mapLookup clientIp clients).getD
            { lastRequestTime := now, requestCount := 0 }) now) clients
      else clients) = some (rollInfo rl info0 now)
    rw [hsome]
    exact mapLookup_insert_self clientIp _ clients

/-- C6 witness: a concrete rejected request leaves the cache, cursor and
stored client state untouched and sends nothing to a worker. -/
theorem rateLimit_rejection_frame_witness :
    (handleRequest
        { server := { listen := 8080, workers := none, upstreams := [],
                      rules := [] },
          rateLimit := some { enabled := true, maxRequests := 1, timeWindow := 1000 },
          cache := none }
        1 (fun _ => true)
        [("c", { lastRequestTime := 0, requestCount := 1 })]
        [("/x", { data := "old", expirationTime := 99 })] 0 "c" [] "/x" 1).cache =
      [("/x", { data := "old", expirationTime := 99 })] ∧
    sentMessage (handleRequest
        { server := { listen := 8080, workers := none, upstreams := [],
                      rules := [] },
          rateLimit := some { enabled := true, maxRequests := 1, timeWindow := 1000 },
          cache := none }
        1 (fun _ => true)
        [("c", { lastRequestTime := 0, requestCount := 1 })]
        [("/x", { data := "old", expirationTime := 99 })] 0 "c" [] "/x" 1).outcome =
      none :=
  ⟨(rateLimit_rejection_frame
      { server := { listen := 8080, workers := none, upstreams := [],
                    rules := [] },
        rateLimit := some { enabled := true, maxRequests := 1, timeWindow := 1000 },
        cache := none }
      1 (fun _ => true)
      [("c", { lastRequestTime := 0, requestCount := 1 })]
      [("/x", { data := "old", expirationTime := 99 })] 0 "c" [] "/x" 1
      (by rfl)).1,
   (rateLimit_rejection_frame
      { server := { listen := 8080, workers := none, upstreams := [],
                    rules := [] },
        rateLimit := some { enabled := true, maxRequests := 1, timeWindow := 1000 },
        cache := none }
      1 (fun _ => true)
      [("c", { lastRequestTime := 0, requestCount := 1 })]
      [("/x", { data := "old", expirationTime := 99 })] 0 "c" [] "/x" 1
      (by rfl)).2.2.1⟩

/-! ## Claim C7 -/

/-- C7 (amended): the rate limiter's window state is keyed by client
identity only, not by (client, path).  A request touches no stored window
state other than the requesting client's single entry, and — given that two
URLs resolve to the same effective rate-limit config — whether a request is
rejected does not depend on the request path at all, because the one shared
window per client is consulted.  Consequently a request to one path does
consume the window used to limit another path for the same client. -/
theorem rateLimiter_keyed_by_ip_only :
    (∀ (cfg : ConfigSchemaType) (poolSize : Nat) (connected : Nat → Bool)
       (clients : List (String × ClientInfo))
       (cache : List (String × CacheEntry)) (cursor : Nat) (clientIp : String)
       (headers : List (String × String)) (url : String) (now : Nat)
       (ip2 : String), ip2 ≠ clientIp →
       mapLookup ip2 (handleRequest cfg poolSize connected clients cache cursor
         clientIp headers url now).clients = mapLookup ip2 clients) ∧
    (∀ (cfg : ConfigSchemaType) (poolSize : Nat) (connected : Nat → Bool)
       (clients : List (String × ClientInfo))
       (cache1 cache2 : List (String × CacheEntry)) (cursor1 cursor2 : Nat)
       (clientIp : String) (headers1 headers2 : List (String × String))
       (u1 u2 : String) (now : Nat),
       activeRLFor cfg u1 = activeRLFor cfg u2 →
       ((handleRequest cfg poolSize connected clients cache1 cursor1 clientIp
          headers1 u1 now).outcome = .rateLimited ↔
        (handleRequest cfg poolSize connected clients cache2 cursor2 clientIp
          headers2 u2 now).outcome = .rateLimited)) := by
  constructor
  · intro cfg poolSize connected clients cache cursor clientIp headers url now
      ip2 hne
    exact handleRequest_clients_other ip2 hne
  · intro cfg poolSize connected clients cache1 cache2 cursor1 cursor2 clientIp
      headers1 headers2 u1 u2 now hsame
    rw [handleRequest_rateLimited_iff, handleRequest_rateLimited_iff, hsame]

/-- C7 counterexample to the claim as stated: with one global window
`maxRequests = 1, timeWindow = 1000`, a client's request to `/a` is
forwarded and sets the shared window to count 1; the same client's
immediate request to the distinct path `/b` is then rejected — the window
for `/b` was consumed by the request to `/a`. -/
theorem rateLimiter_shared_across_paths_cex :
    (handleRequest
        { server := { listen := 8080, workers := none, upstreams := [],
                      rules := [] },
          rateLimit := some { enabled := true, maxRequests := 1, timeWindow := 1000 },
          cache := none }
        1 (fun _ => true) [] [] 0 "1.2.3.4" [] "/a" 0).outcome =
      .forwarded { requestType := "http", headers := [], body := "", url := "/a" } 0 ∧
    (handleRequest
        { server := { listen := 8080, workers := none, upstreams := [],
                      rules := [] },
          rateLimit := some { enabled := true, maxRequests := 1, timeWindow := 1000 },
          cache := none }
        1 (fun _ => true) [] [] 0 "1.2.3.4" [] "/a" 0).clients =
      [("1.2.3.4", { lastRequestTime := 0, requestCount := 1 })] ∧
    (handleRequest
        { server := { listen := 8080, workers := none, upstreams := [],
                      rules := [] },
          rateLimit := some { enabled := true, maxRequests := 1, timeWindow := 1000 },
          cache := none }
        1 (fun _ => true)
        (handleRequest
          { server := { listen := 8080, workers := none, upstreams := [],
                        rules := [] },
            rateLimit := some { enabled := true, maxRequests := 1, timeWindow := 1000 },
            cache := none }
          1 (fun _ => true) [] [] 0 "1.2.3.4" [] "/a" 0).clients
        [] 0 "1.2.3.4" [] "/b" 1).outcome = .rateLimited ∧
    ("/a" : String) ≠ "/b" :=
  ⟨rfl, rfl, rfl, by decide⟩

/-- C7 witness: the amended theorem applied concretely — a request by one
client leaves another client's window untouched, and two distinct paths
under the global config share the same rejection decision. -/
theorem rateLimiter_keyed_by_ip_only_witness :
    mapLookup "5.6.7.8" (handleRequest
        { server := { listen := 8080, workers := none, upstreams := [],
                      rules := [] },
          rateLimit := some { enabled := true, maxRequests := 1, timeWindow := 1000 },
          cache := none }
        1 (fun _ => true)
        [("5.6.7.8", { lastRequestTime := 3, requestCount := 1 })] [] 0
        "1.2.3.4" [] "/a" 0).clients =
      mapLookup "5.6.7.8"
        [("5.6.7.8", { lastRequestTime := 3, requestCount := 1 })] ∧
    ((handleRequest
        { server := { listen := 8080, workers := none, upstreams := [],
                      rules := [] },
          rateLimit := some { enabled := true, maxRequests := 1, timeWindow := 1000 },
          cache := none }
        1 (fun _ => true)
        [("1.2.3.4", { lastRequestTime := 0, requestCount := 1 })] [] 0
        "1.2.3.4" [] "/a" 1).outcome = .rateLimited ↔
     (handleRequest
        { server := { listen := 8080, workers := none, upstreams := [],
                      rules := [] },
          rateLimit := some { enabled := true, maxRequests := 1, timeWindow := 1000 },
          cache := none }
        1 (fun _ => true)
        [("1.2.3.4", { lastRequestTime := 0, requestCount := 1 })] [] 0
        "1.2.3.4" [] "/b" 1).outcome = .rateLimited) :=
  ⟨rateLimiter_keyed_by_ip_only.1
      { server := { listen := 8080, workers := none, upstreams := [],
                    rules := [] },
        rateLimit := some { enabled := true, maxRequests := 1, timeWindow := 1000 },
        cache := none }
      1 (fun _ => true)
      [("5.6.7.8", { lastRequestTime := 3, requestCount := 1 })] [] 0
      "1.2.3.4" [] "/a" 0 "5.6.7.8" (by decide),
   rateLimiter_keyed_by_ip_only.2
      { server := { listen := 8080, workers := none, upstreams := [],
                    rules := [] },
        rateLimit := some { enabled := true, maxRequests := 1, timeWindow := 1000 },
        cache := none }
      1 (fun _ => true)
      [("1.2.3.4", { lastRequestTime := 0, requestCount := 1 })] [] [] 0 0
      "1.2.3.4" [] [] "/a" "/b" 1 (by rfl)⟩

/-! ## Claim C8 -/

/-- C8: the worker's reply taxonomy.  A message failing schema validation
is answered `errorCode "400"`; a valid message whose URL matches no rule's
path is answered `errorCode "404"` with error `"Rule Not Found"`; when the
matching rule's upstream list is empty or its first upstream id resolves to
no configured upstream, the reply carries `errorCode "500"` and no data; on
upstream success the reply carries the full buffered body as `data` with
neither `error` nor `errorCode`; and every reply the worker produces sets
exactly one of `data` or `error`. -/
theorem worker_reply_taxonomy :
    (∀ (cfg : ConfigSchemaType) (j : JValue) (b : String),
       validateWorkerMessage j = none →
       workerHandle cfg j b =
         { data := none, error := some "Message Parsing Error",
           errorCode := some "400" }) ∧
    (∀ (cfg : ConfigSchemaType) (j : JValue) (b : String) (msg : WorkerMessage),
       validateWorkerMessage j = some msg →
       ruleFor cfg msg.url = none →
       workerHandle cfg j b =
         { data := none, error := some "Rule Not Found",
           errorCode := some "404" }) ∧
    (∀ (cfg : ConfigSchemaType) (j : JValue) (b : String) (msg : WorkerMessage)
       (rule : Rule),
       validateWorkerMessage j = some msg →
       ruleFor cfg msg.url = some rule →
       (rule.upstreams = [] ∨
        (∃ uid, rule.upstreams.head? = some uid ∧
          cfg.server.upstreams.find? (fun u => decide (u.id = uid)) = none)) →
       (workerHandle cfg j b).errorCode = some "500" ∧
       (workerHandle cfg j b).data = none) ∧
    (∀ (cfg : ConfigSchemaType) (j : JValue) (b : String) (msg : WorkerMessage)
       (rule : Rule) (uid : String) (u : Upstream),
       validateWorkerMessage j = some msg →
       ruleFor cfg msg.url = some rule →
       rule.upstreams.head? = some uid → uid ≠ "" →
       cfg.server.upstreams.find? (fun u2 => decide (u2.id = uid)) = some u →
       workerHandle cfg j b =
         { data := some b, error := none, errorCode := none }) ∧
    (∀ (cfg : ConfigSchemaType) (j : JValue) (b : String),
       ((workerHandle cfg j b).data.isSome ∧ (workerHandle cfg j b).error = none) ∨
       ((workerHandle cfg j b).data = none ∧ (workerHandle cfg j b).error.isSome)) := by
  refine ⟨?_, ?_, ?_, ?_, ?_⟩
  · intro cfg j b hv
    exact workerHandle_invalid hv
  · intro cfg j b msg hv hr
    rw [workerHandle_valid hv]
    exact workerResolve_noRule hr
  · intro cfg j b msg rule hv hr hbad
    rw [workerHandle_valid hv, workerResolve_someRule hr]
    rcases hbad with hemp | ⟨uid, hu, hf⟩
    · have hh : rule.upstreams.head? = none := by rw [hemp]; rfl
      rw [hh]
      exact ⟨rfl, rfl⟩
    · simp only [hu]
      by_cases huid : uid = ""
      · rw [if_pos huid]
        exact ⟨rfl, rfl⟩
      · rw [if_neg huid]
        simp only [hf]
        exact ⟨trivial, trivial⟩
  · intro cfg j b msg rule uid u hv hr hu hne hf
    rw [workerHandle_valid hv, workerResolve_someRule hr]
    simp only [hu]
    rw [if_neg hne]
    simp only [hf]
  · intro cfg j b
    cases hv : validateWorkerMessage j with
    | none =>
      rw [workerHandle_invalid hv]
      exact Or.inr ⟨rfl, rfl⟩
    | some msg =>
      rw [workerHandle_valid hv]
      cases hr : ruleFor cfg msg.url with
      | none =>
        rw [workerResolve_noRule hr]
        exact Or.inr ⟨rfl, rfl⟩
      | some rule =>
        rw [workerResolve_someRule hr]
        cases hu : rule.upstreams.head? with
        | none => exact Or.inr ⟨rfl, rfl⟩
        | some uid =>
          dsimp only
          by_cases huid : uid = ""
          · rw [if_pos huid]
            exact Or.inr ⟨rfl, rfl⟩
          · rw [if_neg huid]
            cases hf : cfg.server.upstreams.find? (fun u => decide (u.id = uid)) with
            | none => exact Or.inr ⟨rfl, rfl⟩
            | some u => exact Or.inl ⟨rfl, rfl⟩

/-- C8 witness: the taxonomy applied at a concrete configuration — an
invalid message is answered 400, a valid message for an undeclared path is
answered 404, and a valid message for `/todos` is answered with the
buffered upstream body. -/
theorem worker_reply_taxonomy_witness :
    workerHandle
        { server := { listen := 8080, workers := none,
                      upstreams := [{ id := "node1", url := "http://up" }],
                      rules := [{ path := "/todos", upstreams := ["node1"],
                                  rateLimit := none, cache := none }] },
          rateLimit := none, cache := none }
        .jnull "B" =
      { data := none, error := some "Message Parsing Error",
        errorCode := some "400" } ∧
    workerHandle
        { server := { listen := 8080, workers := none,
                      upstreams := [{ id := "node1", url := "http://up" }],
                      rules := [{ path := "/todos", upstreams := ["node1"],
                                  rateLimit := none, cache := none }] },
          rateLimit := none, cache := none }
        (.jobj [("requestType", .jstr "http"), ("headers", .jobj []),
                ("body", .jstr ""), ("url", .jstr "/missing")]) "B" =
      { data := none, error := some "Rule Not Found", errorCode := some "404" } ∧
    workerHandle
        { server := { listen := 8080, workers := none,
                      upstreams := [{ id := "node1", url := "http://up" }],
                      rules := [{ path := "/todos", upstreams := ["node1"],
                                  rateLimit := none, cache := none }] },
          rateLimit := none, cache := none }
        (.jobj [("requestType", .jstr "http"), ("headers", .jobj []),
                ("body", .jstr ""), ("url", .jstr "/todos")]) "B" =
      { data := some "B", error := none, errorCode := none } :=
  ⟨worker_reply_taxonomy.1
      { server := { listen := 8080, workers := none,
                    upstreams := [{ id := "node1", url := "http://up" }],
                    rules := [{ path := "/todos", upstreams := ["node1"],
                                rateLimit := none, cache := none }] },
        rateLimit := none, cache := none }
      .jnull "B" (by rfl),
   worker_reply_taxonomy.2.1
      { server := { listen := 8080, workers := none,
                    upstreams := [{ id := "node1", url := "http://up" }],
                    rules := [{ path := "/todos", upstreams := ["node1"],
                                rateLimit := none, cache := none }] },
        rateLimit := none, cache := none }
      (.jobj [("requestType", .jstr "http"), ("headers", .jobj []),
              ("body", .jstr ""), ("url", .jstr "/missing")]) "B"
      { requestType := "http", headers := [], body := "", url := "/missing" }
      (by rfl) (by rfl),
   worker_reply_taxonomy.2.2.2.1
      { server := { listen := 8080, workers := none,
                    upstreams := [{ id := "node1", url := "http://up" }],
                    rules := [{ path := "/todos", upstreams := ["node1"],
                                rateLimit := none, cache := none }] },
        rateLimit := none, cache := none }
      (.jobj [("requestType", .jstr "http"), ("headers", .jobj []),
              ("body", .jstr ""), ("url", .jstr "/todos")]) "B"
      { requestType := "http", headers := [], body := "", url := "/todos" }
      { path := "/todos", upstreams := ["node1"], rateLimit := none, cache := none }
      "node1" { id := "node1", url := "http://up" }
      (by rfl) (by rfl) (by rfl) (by decide) (by rfl)⟩

/-! ## Claim C9 -/

/-- C9: under the round-robin policy the worker-selection cursor advances
by one modulo the pool size on each dispatched request — a forwarded
request goes to the worker at the current cursor and leaves the cursor at
`(cursor + 1) % poolSize` — and for `M` sequential selections into a pool
of size `P` starting at cursor 0, each worker index `k < P` is selected
exactly `⌊M/P⌋` or `⌈M/P⌉` (i.e. `(M + P - 1) / P`) times. -/
theorem roundRobin_fairness :
    (∀ (cfg : ConfigSchemaType) (poolSize : Nat) (connected : Nat → Bool)
       (clients : List (String × ClientInfo))
       (cache : List (String × CacheEntry)) (cursor : Nat) (clientIp : String)
       (headers : List (String × String)) (url : String) (now : Nat)
       (p : WorkerMessage) (k : Nat),
       (handleRequest cfg poolSize connected clients cache cursor clientIp
         headers url now).outcome = .forwarded p k →
       k = cursor ∧
       (handleRequest cfg poolSize connected clients cache cursor clientIp
         headers url now).cursor = (cursor + 1) % poolSize) ∧
    (∀ (P M k : Nat), 0 < P → k < P →
       List.count k (selections P M 0) = M / P ∨
       List.count k (selections P M 0) = (M + P - 1) / P) := by
  constructor
  · intro cfg poolSize connected clients cache cursor clientIp headers url now
      p k hout
    obtain ⟨-, hk, hc⟩ := handleRequest_forwarded hout
    exact ⟨hk, hc⟩
  · intro P M k hP hk
    have hc := count_range_mod P k hP hk M
    rw [selections_from_zero, hc]
    by_cases hlt : k < M % P
    · right
      rw [if_pos hlt]
      have hmod : M % P < P := Nat.mod_lt M hP
      have hdm := Nat.div_add_mod M P
      have h1 : M + P - 1 = P * (M / P + 1) + (M % P - 1) := by
        rw [Nat.mul_add, Nat.mul_one]
        generalize P * (M / P) = A at hdm ⊢
        omega
      have h2 : (M + P - 1) / P = M / P + 1 := by
        rw [h1, Nat.mul_add_div hP,
          Nat.div_eq_of_lt (show M % P - 1 < P by omega), Nat.add_zero]
      rw [h2]
    · left
      rw [if_neg hlt, Nat.add_zero]

/-- C9 witness: a concrete forwarded request is sent to the worker at the
cursor and advances it, and 7 selections over a pool of 3 give worker 1
exactly `⌊7/3⌋ = 2` or `⌈7/3⌉ = 3` selections. -/
theorem roundRobin_fairness_witness :
    ((1 : Nat) = 1 ∧
      (handleRequest
          { server := { listen := 8080, workers := none, upstreams := [],
                        rules := [] },
            rateLimit := none, cache := none }
          3 (fun _ => true) [] [] 1 "1.2.3.4" [] "/a" 0).cursor = (1 + 1) % 3) ∧
    (List.count 1 (selections 3 7 0) = 7 / 3 ∨
      List.count 1 (selections 3 7 0) = (7 + 3 - 1) / 3) :=
  ⟨roundRobin_fairness.1
      { server := { listen := 8080, workers := none, upstreams := [],
                    rules := [] },
        rateLimit := none, cache := none }
      3 (fun _ => true) [] [] 1 "1.2.3.4" [] "/a" 0
      { requestType := "http", headers := [], body := "", url := "/a" } 1
      (by rfl),
   roundRobin_fairness.2 3 7 1 (by decide) (by decide)⟩

/-! ## Claim C10 -/

/-- C10: when a worker reply is stored in the cache, the entry's expiration
time is `arrivalNow + ttl` where `arrivalNow` is the timestamp captured at
request arrival (line 136) — the reply-handling closure has no other clock
reading — so for a reply processed at any later `replyTime`, the remaining
lifetime of the entry is `ttl - (replyTime - arrivalNow)`: shortened by the
upstream round-trip. -/
theorem cache_ttl_anchored_at_arrival (cc : CacheConfig) (url : String)
    (arrivalNow replyTime : Nat) (cache : List (String × CacheEntry))
    (reply : WorkerReply) (d : String) (hcc : cc.enabled = true)
    (hec : reply.errorCode = none) (hd : reply.data = some d) (hne : d ≠ "")
    (hle : arrivalNow ≤ replyTime) :
    mapLookup url (handleWorkerReply (some cc) url arrivalNow cache reply).1 =
      some { data := d, expirationTime := arrivalNow + effTTL (some cc) } ∧
    arrivalNow + effTTL (some cc) - replyTime =
      effTTL (some cc) - (replyTime - arrivalNow) := by
  constructor
  · have heq : handleWorkerReply (some cc) url arrivalNow cache reply =
        (handleWorkerReply.cacheStoreOnSuccess (some cc) url arrivalNow cache
          reply,
         { status := 200, body := reply.data.getD "" }) := by
      unfold handleWorkerReply
      rw [hec]
    rw [heq]
    have hstore : handleWorkerReply.cacheStoreOnSuccess (some cc) url arrivalNow
        cache reply =
        mapInsert url
          { data := d, expirationTime := arrivalNow + effTTL (some cc) } cache := by
      unfold handleWorkerReply.cacheStoreOnSuccess
      simp only [hcc, if_true, hd, hne, ite_false]
    show mapLookup url (handleWorkerReply.cacheStoreOnSuccess (some cc) url
      arrivalNow cache reply) = _
    rw [hstore]
    exact mapLookup_insert_self url _ cache
  · omega

/-- C10 witness: a reply arriving 15 ms after a request that arrived at
time 10, under a 30000 ms TTL, is cached to expire at `10 + 30000`, with
remaining lifetime `30000 - 15` at the moment it is stored. -/
theorem cache_ttl_anchored_at_arrival_witness :
    mapLookup "/x" (handleWorkerReply
        (some { enabled := true, maxSize := 100, expirationTime := 30000 })
        "/x" 10 []
        { data := some "body", error := none, errorCode := none }).1 =
      some { data := "body",
             expirationTime := 10 + effTTL
               (some { enabled := true, maxSize := 100, expirationTime := 30000 }) } ∧
    10 + effTTL (some { enabled := true, maxSize := 100, expirationTime := 30000 })
        - 25 =
      effTTL (some { enabled := true, maxSize := 100, expirationTime := 30000 })
        - (25 - 10) :=
  cache_ttl_anchored_at_arrival
    { enabled := true, maxSize := 100, expirationTime := 30000 } "/x" 10 25 []
    { data := some "body", error := none, errorCode := none } "body"
    (by rfl) (by rfl) (by rfl) (by decide) (by decide)

end ProxyServer
